import Mathlib

/-
Verification of the infinitree LED animation program (code.py).

The source is CircuitPython; we shallowly embed it in Lean:
  * Python floats are modelled as exact rationals (ℚ);
  * `int(x)` (truncation toward zero) is `pyInt`;
  * Python's `%` on floats (sign of the divisor; here only used with a
    positive divisor) is `pyMod`;
  * `math.sin`, `math.pow(math.e, ·)` and `math.pi` are abstracted as an
    oracle structure `FloatMath`, since no claim depends on their values;
  * `random.uniform(0, 1)` is abstracted as an oracle `rand : ℕ → ℚ`
    giving the value drawn at each call;
  * the state file is `Option String` (`none` = file absent), the
    USB-power query is a `Bool`, and PWM duty cycles are integers.
-/

namespace Infinitree

/-- Python `int(x)` on a rational: truncation toward zero. -/
def pyInt (q : ℚ) : ℤ := if 0 ≤ q then ⌊q⌋ else ⌈q⌉

/-- Python `a % b` on rationals (exact model of float `%`): the remainder
`a - b * ⌊a / b⌋`, which for `b > 0` lies in `[0, b)`. -/
def pyMod (a b : ℚ) : ℚ := a - b * ⌊a / b⌋

/-- Source constant `MAX_DUTY_CYCLE = 2 ** 16 - 1`. -/
def MAX_DUTY_CYCLE : ℕ := 2 ^ 16 - 1

/-- Source constant `STATE_UNKNOWN`. -/
def STATE_UNKNOWN : String := "UNKNOWN"

/-- Source constant `STATE_ACTIVE`. -/
def STATE_ACTIVE : String := "ACTIVE"

/-- Source constant `STATE_SLEEP`. -/
def STATE_SLEEP : String := "SLEEP"

/-- `Led.set(pct)`: clamp `pct` to at most 1, then set the duty cycle to
`min(int(max_duty_cycle * pct), max_duty_cycle)`.  Returns the duty cycle
written to the channel. -/
def ledSet (max_duty_cycle : ℕ) (pct : ℚ) : ℤ :=
  min (pyInt ((max_duty_cycle : ℚ) * min pct 1)) (max_duty_cycle : ℤ)

/-- `Animation.set_all(pct)`: multiply by `scale_max`, then `Led.set` on every
owned channel.  Channels are represented by their `max_duty_cycle`; the result
is the list of duty cycles written. -/
def setAll (scale_max : ℚ) (leds : List ℕ) (pct : ℚ) : List ℤ :=
  leds.map fun m => ledSet m (pct * scale_max)

/-- `App.get_last_state()`: the file's content, or `UNKNOWN` when the file is
absent or unreadable. -/
def getLastState (disk : Option String) : String :=
  disk.getD STATE_UNKNOWN

/-- `App.set_state(state)`: a no-op when USB is connected, otherwise an
overwrite of the state file.  Returns the new disk content. -/
def setState (usb : Bool) (disk : Option String) (state : String) :
    Option String :=
  if usb then disk else some state

/-- `App.init_state_file()`: if `os.stat` fails (no file), write `ACTIVE`. -/
def initStateFile (usb : Bool) (disk : Option String) : Option String :=
  match disk with
  | some _ => disk
  | none => setState usb disk STATE_ACTIVE

/-- The state-file effect of `App.__init__`: when not USB-connected, run
`init_state_file` (the rest of the constructor does not touch the file). -/
def appInitDisk (usb : Bool) (disk : Option String) : Option String :=
  if usb then disk else initStateFile usb disk

/-- `App.halt()`: persist `SLEEP`, blank every LED, raise `HaltException`.
Returns the final disk content and duty cycles. -/
def haltApp (usb : Bool) (disk : Option String) (leds : List ℤ) :
    Option String × List ℤ :=
  (setState usb disk STATE_SLEEP, leds.map fun _ => 0)

/-- The outcome of `App.run`: either the process halted before scheduling
(`HaltException` from the startup transition), or it reached
`loop.schedule` / `loop.run` with the given disk and LED state. -/
inductive RunOutcome where
  | halted (disk : Option String) (leds : List ℤ)
  | scheduled (disk : Option String) (leds : List ℤ)
deriving DecidableEq

/-- The startup portion of `App.run` (the part before the scheduler):
if the last state is `ACTIVE` and USB is not connected, halt; otherwise, if
the last state is `SLEEP`, persist `ACTIVE`; then schedule the loop. -/
def runApp (usb : Bool) (disk : Option String) (leds : List ℤ) : RunOutcome :=
  if getLastState disk = STATE_ACTIVE ∧ usb = false then
    RunOutcome.halted (haltApp usb disk leds).1 (haltApp usb disk leds).2
  else
    RunOutcome.scheduled
      (if getLastState disk = STATE_SLEEP then setState usb disk STATE_ACTIVE
       else disk)
      leds

/-- `App().run(...)`: the constructor (state-file init plus `blank()`)
followed by `run`. -/
def startup (usb : Bool) (disk : Option String) (leds : List ℤ) : RunOutcome :=
  runApp usb (appInitDisk usb disk) (leds.map fun _ => 0)

/-- Oracle for the float transcendentals used by the renderers
(`math.pi`, `math.sin`, `math.pow(math.e, ·)`); no claim depends on their
values, only on their determinism. -/
structure FloatMath where
  pi : ℚ
  sin : ℚ → ℚ
  exp : ℚ → ℚ

/-- `Blink.render`: 0 while `completed <= 0.5`, else 1 (value passed to
`set_all`, i.e. before scaling). -/
def blinkRender (completed : ℚ) : ℚ :=
  if completed ≤ 1 / 2 then 0 else 1

/-- `Sine.render`: `(1 + sin(2 * pi * completed)) / 2`. -/
def sineRender (M : FloatMath) (completed : ℚ) : ℚ :=
  (1 + M.sin (2 * M.pi * completed)) / 2

/-- `FlashAndDecay.render`: `e ^ (-5 * completed)`. -/
def flashAndDecayRender (M : FloatMath) (completed : ℚ) : ℚ :=
  M.exp (-5 * completed)

/-- `RandomGlitch.render`: linear interpolation between the two glitch levels
surrounding `frame_in_animation` (list reads are total via `getD`; with a
valid configuration the indices are in bounds). -/
def randomGlitchRender (glitch_values : List ℚ) (frames_per_glitch : ℤ)
    (frame_in_animation : ℚ) : ℚ :=
  let glitch_index := ⌊frame_in_animation / (frames_per_glitch : ℚ)⌋
  let g1 := glitch_values.getD glitch_index.toNat 0
  let g2 :=
    glitch_values.getD ((glitch_index + 1) % (glitch_values.length : ℤ)).toNat 0
  let step := (g2 - g1) / (frames_per_glitch : ℚ)
  g1 + (frame_in_animation - (glitch_index : ℚ) * (frames_per_glitch : ℚ)) * step

/-- The animation variants of the source, with their construction-time
parameters (`RandomGlitch` carries its precomputed glitch levels and
`frames_per_glitch`; `Static` carries its `pct`). -/
inductive AnimKind where
  | sine
  | flashAndDecay
  | randomGlitch (glitch_values : List ℚ) (frames_per_glitch : ℤ)
  | blink
  | static (pct : ℚ)
deriving DecidableEq

/-- `Animation.__init__`'s derived `frame_count = int(duration * frame_rate)`. -/
def mkFrameCount (duration frame_rate : ℚ) : ℤ :=
  pyInt (duration * frame_rate)

/-- The fields of an `Animation` instance relevant to rendering. -/
structure Animation where
  kind : AnimKind
  leds : List ℕ
  duration : ℚ
  frame_rate : ℚ
  offset : ℚ
  scale_max : ℚ
  frame_count : ℤ

/-- `Animation.__init__` for given variant and parameters (defaults in the
source: `offset = 0`, `scale_max = 1`). -/
def mkAnimation (kind : AnimKind) (leds : List ℕ) (duration frame_rate : ℚ)
    (offset : ℚ := 0) (scale_max : ℚ := 1) : Animation :=
  { kind := kind, leds := leds, duration := duration, frame_rate := frame_rate,
    offset := offset, scale_max := scale_max,
    frame_count := mkFrameCount duration frame_rate }

/-- The `frame_in_animation` computed by `Animation.exec`:
`(frame_number + offset * frame_rate) % frame_count`. -/
def execFia (a : Animation) (frame_number : ℤ) : ℚ :=
  pyMod ((frame_number : ℚ) + a.offset * a.frame_rate) (a.frame_count : ℚ)

/-- The stateless part of variant dispatch: the value a non-`Static` variant
passes to `set_all` for the given `frame_in_animation` and `completed`. -/
def renderValue (M : FloatMath) :
    AnimKind → (fia : ℚ) → (completed : ℚ) → ℚ
  | .sine, _, c => sineRender M c
  | .flashAndDecay, _, c => flashAndDecayRender M c
  | .randomGlitch vs fpg, fia, _ => randomGlitchRender vs fpg fia
  | .blink, _, c => blinkRender c
  | .static pct, _, _ => pct

/-- `Animation.exec(frame_number)`: compute `frame_in_animation` and
`completed` and dispatch to the variant's `render`.  The boolean is
`Static.is_set` (meaningless for the other variants); the result is the new
flag and the list of duty cycles written (empty = no write). -/
def execWrites (M : FloatMath) (a : Animation) (is_set : Bool)
    (frame_number : ℤ) : Bool × List ℤ :=
  let fia := execFia a frame_number
  let completed := fia / (a.frame_count : ℚ)
  match a.kind with
  | .static pct =>
      if is_set then (is_set, []) else (true, setAll a.scale_max a.leds pct)
  | k => (is_set, setAll a.scale_max a.leds (renderValue M k fia completed))

/-- The outputs of a sequence of `exec` calls at the given frame numbers,
threading `Static.is_set` through. -/
def execTrace (M : FloatMath) (a : Animation) : Bool → List ℤ → List (List ℤ)
  | _, [] => []
  | s, f :: fs =>
      (execWrites M a s f).2 :: execTrace M a (execWrites M a s f).1 fs

/-- The effective glitch duration of `RandomGlitch.__init__`: the argument,
or `duration / 10` when the argument is the default 0. -/
def glitchDurationActual (duration glitch_duration : ℚ) : ℚ :=
  if glitch_duration = 0 then duration / 10 else glitch_duration

/-- The number of glitch levels `RandomGlitch.__init__` precomputes:
`range(int(duration / glitch_duration))` appends (an empty range when the
count is not positive). -/
def glitchSegments (duration glitch_duration : ℚ) : ℕ :=
  (pyInt (duration / glitchDurationActual duration glitch_duration)).toNat

/-- `RandomGlitch.__init__`: draw `glitchSegments` random levels, then fail
with `ZeroDivisionError` when the list is empty (the `%` against its length),
with `ValueError("XXX")` when `frame_count` is not divisible by the number of
levels, and otherwise succeed with the levels and
`frames_per_glitch = floor(frame_count / len(glitch_values))`. -/
def mkRandomGlitch (rand : ℕ → ℚ) (duration frame_rate glitch_duration : ℚ) :
    Except String (List ℚ × ℤ) :=
  if glitchSegments duration glitch_duration = 0 then
    Except.error "ZeroDivisionError"
  else if mkFrameCount duration frame_rate %
      (glitchSegments duration glitch_duration : ℤ) ≠ 0 then
    Except.error "XXX"
  else
    Except.ok ((List.range (glitchSegments duration glitch_duration)).map rand,
      ⌊(mkFrameCount duration frame_rate : ℚ) /
        (glitchSegments duration glitch_duration : ℚ)⌋)

/-- `App.update_animation_set()`: do nothing while `elapsed <= 2`; otherwise,
when `current == 0 or int(elapsed % switch_every) == 0`, advance the scene
index, resetting to 1 when it would reach `n = len(self.animations)`. -/
def updateAnimationSet (elapsed : ℚ) (switch_every n current : ℕ) : ℕ :=
  if elapsed ≤ 2 then current
  else if current = 0 ∨ pyInt (pyMod elapsed (switch_every : ℚ)) = 0 then
    (if current + 1 ≥ n then 1 else current + 1)
  else current

/-- The length of `self.animations` in `App.__init__` (six scenes). -/
def numScenes : ℕ := 6

/-- `self.switch_every = 15`. -/
def switchEvery : ℕ := 15

/-- A concrete transcendental oracle, used for witnesses. -/
def trivialFloatMath : FloatMath :=
  { pi := 0, sin := fun _ => 0, exp := fun _ => 0 }

/-- The app's scene-4 animation `Blink(self.leds, duration=1, frame_rate=25)`
(the four registered channel ceilings). -/
def blinkScene : Animation :=
  mkAnimation AnimKind.blink [65535, 2 ^ 14, 65535, 2 ^ 14] 1 25

end Infinitree

namespace Infinitree

/-- Auxiliary: `pyMod a b` is `b` times the fractional part of `a / b`. -/
lemma pyMod_eq_mul_fract (a b : ℚ) (hb : b ≠ 0) :
    pyMod a b = b * Int.fract (a / b) := by
  have h : b * (a / b) = a := by field_simp
  calc pyMod a b = a - b * ⌊a / b⌋ := rfl
    _ = b * (a / b) - b * ⌊a / b⌋ := by rw [h]
    _ = b * (a / b - ⌊a / b⌋) := by ring
    _ = b * Int.fract (a / b) := by rw [Int.fract]

/-- Auxiliary: for a positive divisor, `pyMod` is nonnegative. -/
lemma pyMod_nonneg (a b : ℚ) (hb : 0 < b) : 0 ≤ pyMod a b := by
  rw [pyMod_eq_mul_fract a b hb.ne']
  exact mul_nonneg hb.le (Int.fract_nonneg _)

/-- Auxiliary: Python's `int(e % sw) == 0` test agrees with
`⌊e⌋ % sw == 0` for nonnegative `e` and a positive integer modulus. -/
lemma pyInt_pyMod_eq_zero_iff (e : ℚ) (sw : ℕ) (hsw : 0 < sw) :
    pyInt (pyMod e (sw : ℚ)) = 0 ↔ ⌊e⌋ % (sw : ℤ) = 0 := by
  have hb : (0 : ℚ) < (sw : ℚ) := by exact_mod_cast hsw
  have h1 : pyInt (pyMod e (sw : ℚ)) = ⌊e⌋ - sw * ⌊e / (sw : ℚ)⌋ := by
    rw [pyInt, if_pos (pyMod_nonneg e (sw : ℚ) hb)]
    unfold pyMod
    have hcast : (sw : ℚ) * (⌊e / (sw : ℚ)⌋ : ℚ) =
        (((sw : ℤ) * ⌊e / (sw : ℚ)⌋ : ℤ) : ℚ) := by push_cast; ring
    rw [hcast, Int.floor_sub_int]
  rw [h1]
  constructor
  · intro h
    have h2 : ⌊e⌋ = (sw : ℤ) * ⌊e / (sw : ℚ)⌋ := by omega
    rw [h2]
    exact Int.mul_emod_right _ _
  · intro h
    obtain ⟨m, hm⟩ := Int.dvd_of_emod_eq_zero h
    have hle : ((sw : ℚ) * (m : ℚ)) ≤ e := by
      have h3 := Int.floor_le e
      rw [hm] at h3
      push_cast at h3
      exact h3
    have hlt : e < (sw : ℚ) * (m : ℚ) + (sw : ℚ) := by
      have h4 := Int.lt_floor_add_one e
      rw [hm] at h4
      push_cast at h4
      have h5 : (1 : ℚ) ≤ (sw : ℚ) := by exact_mod_cast hsw
      linarith
    have hfloor : ⌊e / (sw : ℚ)⌋ = m := by
      rw [Int.floor_eq_iff]
      constructor
      · rw [le_div_iff₀ hb]
        linarith
      · rw [div_lt_iff₀ hb]
        linarith
    rw [hfloor, hm]
    ring

/-- C1 counterexample: with no persisted state file and the device not
externally powered, the program does NOT proceed to schedule: the constructor
writes `ACTIVE`, so `run` sees `ACTIVE`, persists `SLEEP` and halts. -/
theorem startup_no_file_unpowered_halts :
    startup false none [7] = RunOutcome.halted (some STATE_SLEEP) [0] := by
  decide

/-- C1 (amended): with no persisted state file and the device not externally
powered, `init_state_file` writes `ACTIVE` during construction; `run` then
reads the state as `ACTIVE` and, being unpowered, persists `SLEEP`, blanks the
LEDs and halts before scheduling anything. -/
theorem startup_no_file_unpowered (leds : List ℤ) :
    appInitDisk false none = some STATE_ACTIVE ∧
      getLastState (appInitDisk false none) = STATE_ACTIVE ∧
      startup false none leds =
        RunOutcome.halted (some STATE_SLEEP) (leds.map fun _ => 0) := by
  refine ⟨rfl, rfl, ?_⟩
  simp [startup, runApp, appInitDisk, initStateFile, setState, getLastState,
    haltApp, STATE_ACTIVE, STATE_SLEEP, Function.comp]

/-- C2: when the persisted state is `ACTIVE` and the device is not externally
powered, startup blanks every output, persists `SLEEP`, and halts before
scheduling anything. -/
theorem startup_active_unpowered_halts (leds : List ℤ) :
    startup false (some STATE_ACTIVE) leds =
      RunOutcome.halted (some STATE_SLEEP) (leds.map fun _ => 0) := by
  simp [startup, runApp, appInitDisk, initStateFile, setState, getLastState,
    haltApp, STATE_ACTIVE, STATE_SLEEP, Function.comp]

/-- C8: whenever the device is externally powered, `set_state` performs no
write: the durable storage is unchanged, whatever state was requested. -/
theorem setState_usb_noop (disk : Option String) (state : String) :
    setState true disk state = disk := rfl

/-- C3 counterexample: `set_all(2)` with `scale_max = 1/2` drives a channel of
ceiling 65535 to the full 65535, not to `min(2, 1) * 1/2 = 1/2` of the
ceiling as the claim computes (the clamp happens after scaling, not before). -/
theorem setAll_order_counterexample :
    setAll (1 / 2) [65535] 2 = [65535] ∧
      (65535 : ℚ) ≠ min (2 : ℚ) 1 * (1 / 2) * 65535 := by
  constructor
  · norm_num [setAll, ledSet, pyInt, min_def]
  · norm_num

/-- C3 (amended): `set_all(value)` first multiplies by `scale_max`; the clamp
to 1.0 is applied to the scaled product inside `Led.set`, so for `value ≥ 0`
and `scale_max ≥ 0` each owned channel receives
`int(max_duty_cycle * min(value * scale_max, 1.0))` of its duty cycle (the
final `min` against `max_duty_cycle` never binds). -/
theorem setAll_clamps_after_scaling (sm v : ℚ) (leds : List ℕ)
    (hv : 0 ≤ v) (hsm0 : 0 ≤ sm) :
    setAll sm leds v =
      leds.map fun (m : ℕ) => pyInt ((m : ℚ) * min (v * sm) 1) := by
  unfold setAll ledSet
  apply List.map_congr_left
  intro m _
  have hmin0 : 0 ≤ min (v * sm) 1 := le_min (mul_nonneg hv hsm0) zero_le_one
  have hle : (m : ℚ) * min (v * sm) 1 ≤ (m : ℚ) := by
    calc (m : ℚ) * min (v * sm) 1 ≤ (m : ℚ) * 1 :=
          mul_le_mul_of_nonneg_left (min_le_right _ _) (by positivity)
      _ = m := mul_one _
  have h1 : pyInt ((m : ℚ) * min (v * sm) 1) ≤ (m : ℤ) := by
    rw [pyInt, if_pos (mul_nonneg (by positivity) hmin0)]
    calc ⌊(m : ℚ) * min (v * sm) 1⌋ ≤ ⌊(m : ℚ)⌋ := Int.floor_le_floor hle
      _ = m := Int.floor_natCast m
  exact min_eq_left h1

/-- Witness for the amended C3: half scale on a full-range channel at value 1
yields duty cycle 32767 = int(65535 / 2). -/
theorem setAll_clamps_after_scaling_witness :
    setAll (1 / 2) [65535] 1 = [32767] := by
  have h := setAll_clamps_after_scaling (1 / 2) 1 [65535] (by norm_num)
    (by norm_num)
  rw [h]
  norm_num [pyInt, min_def]

/-- C4 counterexample: `frame_count = int(duration * frame_rate)` truncates,
so with `duration = 1/2, frame_rate = 25` it is 12, not 12.5; and with
`duration = 1/50, frame_rate = 25` it is 0, violating `frame_count ≥ 1`. -/
theorem mkFrameCount_counterexample :
    ((mkFrameCount (1 / 2) 25 : ℚ) ≠ (1 / 2) * 25) ∧
      ¬(1 ≤ mkFrameCount (1 / 50) 25) := by
  constructor <;> norm_num [mkFrameCount, pyInt]

/-- C4 (amended): `frame_count` is `int(duration * frame_rate)` — the floor
of the product when it is nonnegative, fixed at construction — and
`frame_count ≥ 1` holds whenever `duration * frame_rate ≥ 1` (true of every
animation the app constructs), not for arbitrary parameters. -/
theorem mkFrameCount_floor (d fr : ℚ) (h : 0 ≤ d * fr) :
    mkFrameCount d fr = ⌊d * fr⌋ ∧ (1 ≤ d * fr → 1 ≤ mkFrameCount d fr) := by
  refine ⟨by rw [mkFrameCount, pyInt, if_pos h], fun h1 => ?_⟩
  rw [mkFrameCount, pyInt, if_pos h]
  exact Int.le_floor.mpr (by exact_mod_cast h1)

/-- Witness for the amended C4: `duration = 2, frame_rate = 25` gives
`frame_count = 50 ≥ 1`. -/
theorem mkFrameCount_floor_witness :
    mkFrameCount 2 25 = 50 ∧ 1 ≤ mkFrameCount 2 25 := by
  obtain ⟨h1, h2⟩ := mkFrameCount_floor 2 25 (by norm_num)
  exact ⟨by rw [h1]; norm_num, h2 (by norm_num)⟩

/-- C9: the binary-blink rendered value (before scaling) is exactly 0 for
`completed ∈ [0, 0.5]` and exactly 1 for `completed ∈ (0.5, 1)`. -/
theorem blinkRender_exact (c : ℚ) :
    (0 ≤ c → c ≤ 1 / 2 → blinkRender c = 0) ∧
      (1 / 2 < c → c < 1 → blinkRender c = 1) := by
  constructor
  · intro _ h2
    unfold blinkRender
    rw [if_pos h2]
  · intro h1 _
    unfold blinkRender
    rw [if_neg (not_le.mpr h1)]

/-- Witness for C9: completed = 1/4 renders 0, completed = 3/4 renders 1. -/
theorem blinkRender_exact_witness :
    blinkRender (1 / 4) = 0 ∧ blinkRender (3 / 4) = 1 :=
  ⟨(blinkRender_exact (1 / 4)).1 (by norm_num) (by norm_num),
   (blinkRender_exact (3 / 4)).2 (by norm_num) (by norm_num)⟩

/-- C5: constructing `RandomGlitch` with `duration=2, frame_rate=25,
glitch_duration=0.2` succeeds, with 10 glitch segments of 5 frames each; and
whenever the (positive) number of precomputed segments does not divide
`frame_count`, construction fails with the configuration error. -/
theorem randomGlitch_construction :
    (∀ rand : ℕ → ℚ, mkRandomGlitch rand 2 25 (1 / 5) =
        Except.ok ((List.range 10).map rand, 5))
    ∧ (∀ (rand : ℕ → ℚ) (d fr gd : ℚ), 0 < glitchSegments d gd →
        ¬((glitchSegments d gd : ℤ) ∣ mkFrameCount d fr) →
        mkRandomGlitch rand d fr gd = Except.error "XXX") := by
  constructor
  · intro rand
    have hseg : glitchSegments 2 (1 / 5) = 10 := by
      norm_num [glitchSegments, glitchDurationActual, pyInt]
      rfl
    have hfc : mkFrameCount 2 25 = 50 := by
      norm_num [mkFrameCount, pyInt]
    unfold mkRandomGlitch
    rw [hseg, hfc]
    norm_num
  · intro rand d fr gd hpos hdvd
    unfold mkRandomGlitch
    rw [if_neg (by omega),
      if_pos (fun h => hdvd (Int.dvd_of_emod_eq_zero h))]

/-- Witness for C5: `duration=2, frame_rate=25, glitch_duration=0.3` gives 6
segments, which do not divide `frame_count = 50`, so construction fails. -/
theorem randomGlitch_construction_witness :
    mkRandomGlitch (fun _ => 0) 2 25 (3 / 10) = Except.error "XXX" := by
  have hseg : glitchSegments 2 (3 / 10) = 6 := by
    norm_num [glitchSegments, glitchDurationActual, pyInt]
    rfl
  refine randomGlitch_construction.2 (fun _ => 0) 2 25 (3 / 10) ?_ ?_
  · rw [hseg]
    norm_num
  · rw [hseg]
    norm_num [mkFrameCount, pyInt]

/-- C6: the scene-rotation task leaves the index unchanged while
`elapsed ≤ 2`; afterwards it advances exactly when the index is 0 or
`⌊elapsed⌋ mod switch_every = 0`, wrapping to 1 (never 0) when the advanced
index reaches the table length. -/
theorem update_animation_set_rule (e : ℚ) (sw n c : ℕ) (hsw : 0 < sw)
    (hc : c < n) :
    updateAnimationSet e sw n c =
      if e ≤ 2 then c
      else if c = 0 ∨ ⌊e⌋ % (sw : ℤ) = 0 then (if c + 1 = n then 1 else c + 1)
      else c := by
  unfold updateAnimationSet
  by_cases he : e ≤ 2
  · rw [if_pos he, if_pos he]
  · rw [if_neg he, if_neg he]
    have hiff := pyInt_pyMod_eq_zero_iff e sw hsw
    by_cases hcond : c = 0 ∨ ⌊e⌋ % (sw : ℤ) = 0
    · have hcond' : c = 0 ∨ pyInt (pyMod e (sw : ℚ)) = 0 := by
        rcases hcond with h | h
        exacts [Or.inl h, Or.inr (hiff.mpr h)]
      rw [if_pos hcond', if_pos hcond]
      by_cases hn : c + 1 = n
      · rw [if_pos (by omega), if_pos hn]
      · rw [if_neg (by omega), if_neg hn]
    · have hcond' : ¬(c = 0 ∨ pyInt (pyMod e (sw : ℚ)) = 0) := by
        intro hx
        rcases hx with h | h
        exacts [hcond (Or.inl h), hcond (Or.inr (hiff.mp h))]
      rw [if_neg hcond', if_neg hcond]

/-- Witness for C6: at `elapsed = 16` with `switch_every = 15` and scene 3,
`⌊16⌋ mod 15 = 1 ≠ 0`, so the index stays 3. -/
theorem update_animation_set_rule_witness :
    updateAnimationSet 16 15 6 3 = 3 := by
  have h := update_animation_set_rule 16 15 6 3 (by norm_num) (by norm_num)
  rw [h]
  norm_num

/-- Auxiliary: one rotation step keeps the index below the table length and
never takes a positive index back to 0. -/
lemma updateAnimationSet_step_bounds (e : ℚ) (sw n c : ℕ) (h2 : 2 ≤ n)
    (hc : c < n) :
    updateAnimationSet e sw n c < n ∧
      (1 ≤ c → 1 ≤ updateAnimationSet e sw n c) := by
  unfold updateAnimationSet
  split_ifs <;> omega

/-- C10: from any in-range scene index, any sequence of rotation-task
invocations keeps the index in `[0, numScenes - 1]` (so per-frame rendering
never indexes out of bounds), and once the index is positive it stays
positive (never returns to the intro scene 0). -/
theorem scene_index_invariant (es : List ℚ) (c : ℕ) (hc : c < numScenes) :
    es.foldl (fun cur e => updateAnimationSet e switchEvery numScenes cur) c
        < numScenes ∧
      (1 ≤ c →
        1 ≤ es.foldl
          (fun cur e => updateAnimationSet e switchEvery numScenes cur) c) := by
  induction es generalizing c with
  | nil => exact ⟨hc, fun h => h⟩
  | cons e es ih =>
    simp only [List.foldl_cons]
    have hstep := updateAnimationSet_step_bounds e switchEvery numScenes c
      (by norm_num [numScenes]) hc
    have ih' := ih (updateAnimationSet e switchEvery numScenes c) hstep.1
    exact ⟨ih'.1, fun h1 => ih'.2 (hstep.2 h1)⟩

/-- Witness for C10: starting at the intro scene and rotating at elapsed
times 3 and 16 keeps the index in range. -/
theorem scene_index_invariant_witness :
    ([3, 16] : List ℚ).foldl
        (fun cur e => updateAnimationSet e switchEvery numScenes cur) 0
      < numScenes :=
  (scene_index_invariant [3, 16] 0 (by norm_num [numScenes])).1

/-- Auxiliary: `pyMod` is invariant under adding the (nonzero) divisor. -/
lemma pyMod_add_cancel (x b : ℚ) (hb : b ≠ 0) : pyMod (x + b) b = pyMod x b := by
  unfold pyMod
  have h : (x + b) / b = x / b + 1 := by
    field_simp
  rw [h, Int.floor_add_one]
  push_cast
  ring

/-- Auxiliary: `frame_in_animation` is periodic in the global frame number
with period `frame_count`. -/
lemma execFia_periodic (a : Animation) (h : 0 < a.frame_count) (f : ℤ) :
    execFia a (f + a.frame_count) = execFia a f := by
  unfold execFia
  have hb : (a.frame_count : ℚ) ≠ 0 := by exact_mod_cast h.ne'
  have hx : ((f + a.frame_count : ℤ) : ℚ) + a.offset * a.frame_rate =
      ((f : ℚ) + a.offset * a.frame_rate) + (a.frame_count : ℚ) := by
    push_cast
    ring
  rw [hx, pyMod_add_cancel _ _ hb]

/-- C7: for every animation with positive `frame_count`, `exec(f)` and
`exec(f + frame_count)` produce identical output — for every variant except
`Static`, which, from its initial unset flag, writes on the first call only
and produces no output on any later call. -/
theorem exec_periodicity (M : FloatMath) (a : Animation)
    (h : 0 < a.frame_count) :
    ((∀ pct, a.kind ≠ AnimKind.static pct) → ∀ (s : Bool) (f : ℤ),
        execWrites M a s (f + a.frame_count) = execWrites M a s f)
      ∧ (∀ pct, a.kind = AnimKind.static pct → ∀ fs : List ℤ, fs ≠ [] →
        execTrace M a false fs =
          setAll a.scale_max a.leds pct :: fs.tail.map fun _ => ([] : List ℤ)) := by
  constructor
  · intro _ s f
    simp only [execWrites, execFia_periodic a h f]
  · intro pct hk fs hfs
    match fs with
    | [] => exact absurd rfl hfs
    | f :: fs' =>
      have hfirst : execWrites M a false f =
          (true, setAll a.scale_max a.leds pct) := by
        simp [execWrites, hk]
      have hrest : ∀ gs : List ℤ,
          execTrace M a true gs = gs.map fun _ => ([] : List ℤ) := by
        intro gs
        induction gs with
        | nil => rfl
        | cons g gs ih =>
          have hg : execWrites M a true g = (true, []) := by
            simp [execWrites, hk]
          simp [execTrace, hg, ih]
      simp [execTrace, hfirst, hrest]

/-- Witness for C7: the final blink scene repeats identically one period
(25 frames) later. -/
theorem exec_periodicity_witness :
    execWrites trivialFloatMath blinkScene false (3 + blinkScene.frame_count) =
      execWrites trivialFloatMath blinkScene false 3 :=
  (exec_periodicity trivialFloatMath blinkScene
      (by norm_num [blinkScene, mkAnimation, mkFrameCount, pyInt])).1
    (fun pct => by simp [blinkScene, mkAnimation]) false 3

end Infinitree
